import Mathlib

/-!
Verification of the LexiMindd legal-document retrieval app (`app.py`).

Text is modelled as `List Char` (Python strings index by code point, as
`List Char` does).  Opaque third-party components (PDF parsers, the
sentence encoder, the classifier, the LLM provider) are modelled as
parameters: their possible behaviours are universally quantified, and the
code around them is translated faithfully from `app.py`.
-/

set_option maxRecDepth 20000

namespace LexiMind

/-- Python strings, as lists of code points. -/
abbrev Str := List Char

/-- Literal string to `Str`. -/
def toL (s : String) : Str := s.toList

/-- The whitespace class used by Python's `str.strip()` / `str.split()`
(ASCII fragment: space, tab, newline, carriage return, vertical tab, form feed). -/
def pyIsSpace (c : Char) : Bool :=
  (c == ' ') || (c == '\t') || (c == '\n') || (c == '\r') || (c == '\x0b') || (c == '\x0c')

/-- Python `str.strip()`: drop leading and trailing whitespace. -/
def pstrip (s : Str) : Str :=
  ((s.dropWhile pyIsSpace).reverse.dropWhile pyIsSpace).reverse

/-- Python `str.lower()` (ASCII fragment). -/
def plower (s : Str) : Str := s.map Char.toLower

/-- Python `str.split()` with no arguments: split on whitespace runs,
discarding empty chunks. -/
def pwords (s : Str) : List Str :=
  (s.splitOnP pyIsSpace).filter (fun w => w ≠ [])

/-- Python `s.find(pat)`: index of the first occurrence of `pat` in `s`,
`none` when absent (Python returns `-1`). -/
def findSub (pat : Str) : Str → Option ℕ
  | [] => if pat.isPrefixOf [] then some 0 else none
  | c :: t =>
    if pat.isPrefixOf (c :: t) then some 0
    else (findSub pat t).map (· + 1)

/-- The literal marker the handler truncates at (`app.py` line 347). -/
def judgmentMarker : Str := toL "JUDGMENT"

/-- Lines 347–348: `start_index = input_text.find("JUDGMENT")`;
`text = input_text[start_index:] if start_index != -1 else input_text`. -/
def truncateAtJudgment (input_text : Str) : Str :=
  match findSub judgmentMarker input_text with
  | some start_index => input_text.drop start_index
  | none => input_text

/-! ## Document Text Extractor (`read_pdf_from_bytes`, lines 32–58)

The two PDF parsers (pdfplumber, PyPDF2) are opaque third-party libraries.
A run of one parser over the byte buffer either terminates normally having
produced a text for each page (`ok`), or raises an exception after having
produced some pages (`exn` keeps the pages yielded before the raise and
the exception's message).  A page whose `extract_text()` returned `None`
or `""` is recorded as `[]` (both are falsy at the `if txt:` test). -/

/-- Outcome of iterating one PDF parser over a byte buffer. -/
inductive ParseOutcome where
  | ok (pages : List Str)
  | exn (pages : List Str) (msg : Str)
deriving DecidableEq

/-- The `if txt: text_pages.append(txt)` filter (lines 42–43, 54–55). -/
def pageFilter (pages : List Str) : List Str := pages.filter (fun t => t ≠ [])

/-- Python `"\n".join(text_pages)` (lines 45, 56). -/
def joinNL (text_pages : List Str) : Str := List.intercalate (toL "\n") text_pages

/-- Lines 50–58: the PyPDF2 fallback.  `text_pages` holds whatever the
pdfplumber pass appended before failing — the source never resets it. -/
def runFallback (text_pages : List Str) : ParseOutcome → Str
  | .ok pages => joinNL (text_pages ++ pageFilter pages)
  | .exn _ e => toL "[ERROR] Could not extract PDF text: " ++ e

/-- Lines 32–58: try pdfplumber; if it raised or produced no text, fall
back to PyPDF2, appending to the same `text_pages` list; if PyPDF2 raises,
return an in-band `[ERROR]` string. -/
def read_pdf_from_bytes (primary secondary : ParseOutcome) : Str :=
  match primary with
  | .ok pages =>
    let text_pages := pageFilter pages
    if text_pages ≠ [] then joinNL text_pages
    else runFallback text_pages secondary
  | .exn pages _ => runFallback (pageFilter pages) secondary

/-- The in-band failure marker tested by the handler (line 334). -/
def errMarker : Str := toL "[ERROR]"

/-! ## Retrieval & Ranking (lines 357–372)

`model.encode` and `util.cos_sim` are opaque: the cosine-score vector is
universally quantified data (one score per corpus entry).  `np.argsort`
with its default `kind` guarantees only that the returned index list sorts
the array; it is **not** a stable sort, so its behaviour on tied scores is
captured relationally by `IsArgsortDesc`. -/

/-- One entry of the `results` list built at lines 364–372. -/
structure RankedResult where
  case : Str
  score : ℚ
  rank : ℕ
  preview : Str
  full_text : Str
deriving DecidableEq

/-- The result-building loop of lines 364–372: for each retained index,
in order, emit case name, score, 1-based rank (`len(results) + 1`),
500-character preview and full text.  `k` is the running `len(results)`. -/
def retrieveResults (case_names judgment_texts : List Str) (cos_scores : List ℚ) :
    List ℕ → ℕ → List RankedResult
  | [], _ => []
  | idx :: rest, k =>
    { case := case_names.getD idx [],
      score := cos_scores.getD idx 0,
      rank := k + 1,
      preview := (judgment_texts.getD idx []).take 500,
      full_text := judgment_texts.getD idx [] }
      :: retrieveResults case_names judgment_texts cos_scores rest (k + 1)

/-- The contract of `np.argsort(-cos_scores)` (line 360): the returned
index list is a permutation of `0..n-1` along which the scores are
non-increasing.  The default sort kind (quicksort) is not stable, so the
relative order of tied scores is NOT constrained beyond this. -/
def IsArgsortDesc (cos_scores : List ℚ) (order : List ℕ) : Prop :=
  List.Perm order (List.range cos_scores.length) ∧
    (order.map (fun i => cos_scores.getD i 0)).Pairwise (fun a b => b ≤ a)

/-- Tied scores appear in ascending original-index order. -/
def TieBreakAscending (cos_scores : List ℚ) (order : List ℕ) : Prop :=
  order.Pairwise (fun i j => cos_scores.getD i 0 = cos_scores.getD j 0 → i < j)

/-! ## Request handler (`index`, POST branch, lines 311–404)

The uploaded file carries, besides its form data, the outcome each of the
two opaque PDF parsers would have on its bytes.  The classifier
(`modellog.predict`) and the encoder+cosine step (`model.encode` /
`util.cos_sim`) are opaque and may raise: they are parameters returning
`Except Str _` (`.error e` models an exception with message `e`, answered
with HTTP 500 at lines 353–354 / 361–362). -/

/-- A multipart file field: `filename`, the bytes `uploaded.read()` would
return, and the behaviour of the two PDF parsers on those bytes. -/
structure UploadedFile where
  filename : Str
  fileBytes : Str
  primary : ParseOutcome
  secondary : ParseOutcome
deriving DecidableEq

/-- A POST request to `/`: the `text_input` form field (absent ↦ `[]`)
and the optional `file` field. -/
structure Request where
  text_input : Str
  file : Option UploadedFile
deriving DecidableEq

/-- One per return path of the POST branch: `badRequest` is an HTTP 400
page, `serverError` an HTTP 500, `page` the rendered results page with
predicted category and the retained original document. -/
inductive HResponse where
  | badRequest (msg : Str)
  | serverError (msg : Str)
  | page (results : List RankedResult) (category : Str) (originalDocument : Str)
deriving DecidableEq

/-- Is this a 400-class (client error) response? -/
def isClientError : HResponse → Bool
  | .badRequest _ => true
  | _ => false

/-- Line 319. -/
def noInputMsg : Str := toL "❌ No input provided (paste text or upload a PDF)."

/-- Line 323. -/
def onlyPdfMsg : Str := toL "❌ Only PDF files are allowed."

/-- Line 328. -/
def emptyFileMsg : Str := toL "❌ Uploaded file is empty."

/-- Line 335. -/
def pdfFailMsg (input_text : Str) : Str := toL "❌ PDF processing failed: " ++ input_text

/-- Line 339. -/
def noTextMsg : Str := toL "❌ No text could be extracted from the input."

/-- Line 344. -/
def tooShortMsg (word_count : ℕ) : Str :=
  toL "❌ Input text is too short. Please provide at least 5 words for meaningful analysis. Current: "
    ++ (Nat.repr word_count).toList ++ toL " words."

/-- Line 354. -/
def catErrMsg (e : Str) : Str := toL "❌ Error in category prediction: " ++ e

/-- Line 362. -/
def searchErrMsg (e : Str) : Str := toL "❌ Error in semantic search: " ++ e

/-- Lines 311–335: obtain the input text — the stripped `text_input` form
field if non-empty, otherwise text extracted from the uploaded PDF.
`.error r` is an early `return` with response `r`. -/
def indexInputPhase (req : Request) : Except HResponse Str :=
  let input_text := pstrip req.text_input
  if input_text = [] then
    match req.file with
    | none => .error (.badRequest noInputMsg)
    | some uploaded =>
      if uploaded.filename = [] then .error (.badRequest noInputMsg)
      else if ¬ (toL ".pdf").isSuffixOf (plower uploaded.filename) then
        .error (.badRequest onlyPdfMsg)
      else if uploaded.fileBytes = [] then .error (.badRequest emptyFileMsg)
      else
        let extracted := read_pdf_from_bytes uploaded.primary uploaded.secondary
        if errMarker.isPrefixOf extracted then .error (.badRequest (pdfFailMsg extracted))
        else .ok extracted
  else .ok input_text

/-- Lines 337–372: validation of the obtained text, truncation at the
`"JUDGMENT"` marker, classification, and top-5 semantic retrieval. -/
def indexMainPhase (case_names judgment_texts : List Str)
    (classify : Str → Except Str Str)
    (cosScores : Str → Except Str (List ℚ))
    (argsortDesc : List ℚ → List ℕ)
    (input_text : Str) : HResponse :=
  if input_text = [] then .badRequest noTextMsg
  else
    let word_count := (pwords (pstrip input_text)).length
    if word_count < 5 then .badRequest (tooShortMsg word_count)
    else
      let text := truncateAtJudgment input_text
      match classify text with
      | .error e => .serverError (catErrMsg e)
      | .ok predicted_category =>
        match cosScores text with
        | .error e => .serverError (searchErrMsg e)
        | .ok cos_scores =>
          let top_results := (argsortDesc cos_scores).take 5
          .page (retrieveResults case_names judgment_texts cos_scores top_results 0)
            predicted_category text

/-- The whole POST branch of `index` (lines 311–404). -/
def index (case_names judgment_texts : List Str)
    (classify : Str → Except Str Str)
    (cosScores : Str → Except Str (List ℚ))
    (argsortDesc : List ℚ → List ℕ)
    (req : Request) : HResponse :=
  match indexInputPhase req with
  | .error resp => resp
  | .ok input_text =>
    indexMainPhase case_names judgment_texts classify cosScores argsortDesc input_text

/-- The text the handler analyses, when input acquisition succeeds. -/
def effectiveText (req : Request) : Option Str := (indexInputPhase req).toOption

/-! ## Explanation Orchestrator (`get_legal_explanation`, lines 93–293)

The Gemini client is opaque.  One `generate_content` call either returns
a response whose `.text` we record (a falsy response or empty text is
recorded as `[]`, both fail the `if response and response.text:` test at
line 249), or raises with some message.  `provider n` is the outcome of
the call made on attempt number `n`.  The prompt built at lines 112–243
is interpolated text fed only to the opaque LLM, so its content is not
modelled. -/

/-- Outcome of one `gemini_model.generate_content` call. -/
inductive GenOutcome where
  | ok (text : Str)
  | exn (msg : Str)
deriving DecidableEq

/-- One chunk of chat context: the fields `get_legal_explanation` reads
via `chunk.get(...)`; a missing key is `none`. -/
structure Chunk where
  case : Option Str
  full_text : Option Str
  preview : Option Str
deriving DecidableEq

/-- The result dictionary of `get_legal_explanation`. -/
structure ExplanationResult where
  answer : Option Str
  error : Option Str
  sources : List Str
deriving DecidableEq

/-- Python `pat in s` substring test. -/
def containsSub (s pat : Str) : Bool := (findSub pat s).isSome

/-- Line 99. -/
def unavailableMsg : Str :=
  toL "❌ AI service temporarily unavailable due to quota limits. Please try again later or use the search functionality to find relevant legal cases."

/-- Line 108. -/
def noCtxAnswer : Str :=
  toL "I can help explain legal concepts in simple terms, but I need some context from legal cases to provide accurate information. Please use the main search form first to find relevant cases, then ask me specific questions about them."

/-- Line 260. -/
def noRespMsg : Str := toL "No response generated from AI model"

/-- Line 290. -/
def failedMsg : Str := toL "Failed to get response from AI service"

/-- Line 271. -/
def quotaMsg : Str :=
  toL "❌ QUOTA EXCEEDED: Your Gemini API free tier limit has been reached. Please upgrade to a paid plan or wait for the quota to reset. See: https://ai.google.dev/pricing"

/-- Line 277. -/
def keyMsg : Str :=
  toL "❌ API KEY ISSUE: Please check your Gemini API key in the .env file. Make sure it\x27s valid and has the required permissions."

/-- Line 283. -/
def genericErrMsg (max_retries : ℕ) (error_str : Str) : Str :=
  toL "❌ AI service error after " ++ (Nat.repr max_retries).toList
    ++ toL " attempts: " ++ error_str

/-- Lines 266–286: classify the final attempt's exception text by
substring match (`quota`/`429` → quota message, `api_key`/`permission` →
credential message, otherwise generic). -/
def classifyGeminiErr (max_retries : ℕ) (error_str : Str) : ExplanationResult :=
  if containsSub (plower error_str) (toL "quota") || containsSub error_str (toL "429") then
    { answer := none, error := some quotaMsg, sources := [] }
  else if containsSub (plower error_str) (toL "api_key")
      || containsSub (plower error_str) (toL "permission") then
    { answer := none, error := some keyMsg, sources := [] }
  else
    { answer := none, error := some (genericErrMsg max_retries error_str), sources := [] }

/-- The case names cited as sources (line 251): `chunk.get('case')` must
be truthy (present and non-empty). -/
def chunkSources (context_chunks : List Chunk) : List Str :=
  context_chunks.filterMap fun c =>
    match c.case with
    | some s => if s ≠ [] then some s else none
    | none => none

/-- The retry loop of lines 245–293, by recursion on the number of
attempts still to run; the current attempt index is
`max_retries - remaining`.  A non-final exception `continue`s; the final
attempt's exception is classified; falling out of the loop (only possible
when `max_retries = 0`) yields the closing fixed error (lines 289–293). -/
def attemptLoop (provider : ℕ → GenOutcome) (sources : List Str) (max_retries : ℕ) :
    ℕ → ExplanationResult
  | 0 => { answer := none, error := some failedMsg, sources := [] }
  | Nat.succ n =>
    let attempt := max_retries - Nat.succ n
    match provider attempt with
    | .ok t =>
      if t ≠ [] then { answer := some (pstrip t), error := none, sources := sources }
      else { answer := none, error := some noRespMsg, sources := [] }
    | .exn e =>
      if attempt == max_retries - 1 then classifyGeminiErr max_retries e
      else attemptLoop provider sources max_retries n

/-- Lines 93–293: no model → fixed unavailability error; empty context →
canned guidance as the answer; otherwise run the bounded retry loop.
The `question` argument only shapes the prompt fed to the opaque LLM. -/
def get_legal_explanation (hasModel : Bool) (question : Str)
    (context_chunks : List Chunk) (provider : ℕ → GenOutcome)
    (max_retries : ℕ) : ExplanationResult :=
  if ¬ hasModel then { answer := none, error := some unavailableMsg, sources := [] }
  else if context_chunks = [] then { answer := some noCtxAnswer, error := none, sources := [] }
  else attemptLoop provider (chunkSources context_chunks) max_retries max_retries

/-! ## Chat route (`chat`, lines 439–492) -/

/-- The parsed JSON body: `question` key (possibly absent) and the
`context` list (absent ↦ `[]`, the default of `data.get('context', [])`). -/
structure ChatData where
  question : Option Str
  context : List Chunk
deriving DecidableEq

/-- One per return shape of `/chat`: `reject` is a 400 JSON error,
`replyNoSources` the canned success JSON without a `sources` key,
`reply` the delegated success JSON with sources, `failure` a 500 JSON
error. -/
inductive ChatResp where
  | reject (msg : Str)
  | replyNoSources (response : Str)
  | reply (response : Str) (sources : List Str)
  | failure (msg : Str)
deriving DecidableEq

/-- Line 449. -/
def missingQuestionMsg : Str := toL "Missing \x27question\x27 in request data"

/-- Line 453. -/
def emptyQuestionMsg : Str := toL "Question cannot be empty"

/-- Line 467: the canned greeting. -/
def greetingResponse : Str :=
  toL "Hello! I\x27m your legal assistant. I can help explain your uploaded legal documents in simple, everyday language with clear, structured responses using emojis and sections. Please upload a document first using the main form, then ask me specific questions about it. For example: \x27What does this mean?\x27, \x27Explain this in simple words\x27, \x27Give me a structured summary\x27, or \x27Explain this like I\x27m not a law student.\x27"

/-- Line 474: the canned guidance for substantive questions without context. -/
def guidanceResponse : Str :=
  toL "I can help explain legal concepts in simple terms with clear, structured responses using emojis and sections, but I need some context from your uploaded document to provide accurate information. Please upload a document first using the main form, then ask me specific questions about it. Try: \x27Give me a structured summary\x27 or \x27Explain this in simple terms like I\x27m not a law student.\x27"

/-- Line 464: the greeting whitelist. -/
def greetingsList : List Str :=
  [toL "hi", toL "hello", toL "hey", toL "help", toL "what can you do"]

/-- Python truthiness of an optional string. -/
def truthyStrOpt : Option Str → Bool
  | some s => s ≠ []
  | none => false

/-- Lines 439–492: the `/chat` route.  `data = none` models a body that
is not a JSON object (`if not data or 'question' not in data`). -/
def chat (hasModel : Bool) (provider : ℕ → GenOutcome) (data : Option ChatData) : ChatResp :=
  match data with
  | none => .reject missingQuestionMsg
  | some d =>
    match d.question with
    | none => .reject missingQuestionMsg
    | some q0 =>
      let question := pstrip q0
      if question = [] then .reject emptyQuestionMsg
      else
        let context_chunks := d.context
        if context_chunks = [] then
          if pstrip (plower question) ∈ greetingsList then .replyNoSources greetingResponse
          else .replyNoSources guidanceResponse
        else
          let result := get_legal_explanation hasModel question context_chunks provider 3
          if truthyStrOpt result.error then .failure (result.error.getD [])
          else .reply (result.answer.getD []) result.sources

/-! ## Supporting lemmas -/

/-- `findSub` returns `some p` exactly when `pat` occurs at `p` and at no
earlier position (Python `find` returns the lowest index). -/
theorem findSub_eq_some_iff (pat : Str) : ∀ (s : Str) (p : ℕ),
    findSub pat s = some p ↔
      (pat.isPrefixOf (s.drop p) = true ∧ ∀ q < p, pat.isPrefixOf (s.drop q) = false)
  | [], p => by
    simp only [findSub, List.drop_nil]
    by_cases hpre : pat.isPrefixOf [] = true
    · rw [if_pos hpre]
      constructor
      · intro h
        cases h
        exact ⟨hpre, fun q hq => absurd hq (by omega)⟩
      · rintro ⟨h1, h2⟩
        by_cases hp : p = 0
        · rw [hp]
        · have := h2 0 (by omega)
          rw [hpre] at this
          cases this
    · rw [if_neg hpre]
      constructor
      · intro h; cases h
      · rintro ⟨h1, h2⟩; exact absurd h1 hpre
  | c :: t, p => by
    simp only [findSub]
    by_cases hpre : pat.isPrefixOf (c :: t) = true
    · rw [if_pos hpre]
      constructor
      · intro h
        cases h
        exact ⟨hpre, fun q hq => absurd hq (by omega)⟩
      · rintro ⟨h1, h2⟩
        by_cases hp : p = 0
        · rw [hp]
        · have := h2 0 (by omega)
          simp only [List.drop_zero] at this
          rw [hpre] at this
          cases this
    · rw [if_neg hpre]
      constructor
      · intro h
        rcases Option.map_eq_some'.mp h with ⟨p0, hp0, rfl⟩
        rcases (findSub_eq_some_iff pat t p0).mp hp0 with ⟨h1, h2⟩
        refine ⟨by simpa [List.drop_succ_cons] using h1, ?_⟩
        intro q hq
        cases q with
        | zero =>
          simpa only [List.drop_zero] using Bool.not_eq_true _ ▸ (by simpa using hpre)
        | succ q0 =>
          simpa [List.drop_succ_cons] using h2 q0 (by omega)
      · rintro ⟨h1, h2⟩
        cases p with
        | zero =>
          simp only [List.drop_zero] at h1
          exact absurd h1 hpre
        | succ p0 =>
          have : findSub pat t = some p0 := by
            refine (findSub_eq_some_iff pat t p0).mpr ⟨by simpa [List.drop_succ_cons] using h1, ?_⟩
            intro q hq
            simpa [List.drop_succ_cons] using h2 (q + 1) (by omega)
          rw [this]
          rfl

/-- `findSub` returns `none` exactly when `pat` occurs nowhere in `s`. -/
theorem findSub_eq_none_iff (pat : Str) : ∀ (s : Str),
    findSub pat s = none ↔ ∀ p, pat.isPrefixOf (s.drop p) = false
  | [] => by
    simp only [findSub, List.drop_nil]
    by_cases hpre : pat.isPrefixOf [] = true
    · rw [if_pos hpre]
      constructor
      · intro h; cases h
      · intro h
        have := h 0
        rw [hpre] at this
        cases this
    · rw [if_neg hpre]
      refine ⟨fun _ p => ?_, fun _ => rfl⟩
      exact Bool.not_eq_true _ ▸ (by simpa using hpre)
  | c :: t => by
    simp only [findSub]
    by_cases hpre : pat.isPrefixOf (c :: t) = true
    · rw [if_pos hpre]
      constructor
      · intro h; cases h
      · intro h
        have := h 0
        simp only [List.drop_zero] at this
        rw [hpre] at this
        cases this
    · rw [if_neg hpre]
      constructor
      · intro h p
        have ht : findSub pat t = none := by
          cases hft : findSub pat t with
          | none => rfl
          | some v => rw [hft] at h; cases h
        cases p with
        | zero => simpa only [List.drop_zero] using Bool.not_eq_true _ ▸ (by simpa using hpre)
        | succ p0 => simpa [List.drop_succ_cons] using ((findSub_eq_none_iff pat t).mp ht) p0
      · intro h
        have : findSub pat t = none := by
          refine (findSub_eq_none_iff pat t).mpr fun p => ?_
          simpa [List.drop_succ_cons] using h (p + 1)
        rw [this]
        rfl

/-- A nonempty pattern occurring at no position below `s.length` occurs
nowhere (positions past the end leave only the empty suffix). -/
theorem noOccurrence_of_boundedCheck (pat s : Str) (hne : pat ≠ [])
    (h : ∀ p < s.length, pat.isPrefixOf (s.drop p) = false) :
    ∀ p, pat.isPrefixOf (s.drop p) = false := by
  intro p
  by_cases hp : p < s.length
  · exact h p hp
  · rw [List.drop_eq_nil_of_le (by omega)]
    cases pat with
    | nil => exact absurd rfl hne
    | cons a l => rfl

/-- "Primary parser raises or yields no text": the pdfplumber pass either
raised, or terminated with every page text empty. -/
def primaryFailed : ParseOutcome → Prop
  | .ok pages => pageFilter pages = []
  | .exn _ _ => True

/-- The (possibly partial) non-empty page texts the pdfplumber pass left
in `text_pages` before the fallback runs. -/
def primaryPartial : ParseOutcome → List Str
  | .ok pages => pageFilter pages
  | .exn pages _ => pageFilter pages

/-! ## Claims -/

/-- Claim C3: for every input text, if the literal case-sensitive marker
"JUDGMENT" occurs with first occurrence at position `p`, the analyzed
text equals the substring from `p` to the end; if the marker does not
occur, the analyzed text equals the input unchanged. -/
theorem c3_truncation_at_first_marker :
    (∀ (t : Str) (p : ℕ),
        judgmentMarker.isPrefixOf (t.drop p) = true →
        (∀ q < p, judgmentMarker.isPrefixOf (t.drop q) = false) →
        truncateAtJudgment t = t.drop p) ∧
    (∀ t : Str, (∀ p, judgmentMarker.isPrefixOf (t.drop p) = false) →
        truncateAtJudgment t = t) := by
  constructor
  · intro t p h1 h2
    have h : findSub judgmentMarker t = some p := (findSub_eq_some_iff _ _ _).mpr ⟨h1, h2⟩
    simp [truncateAtJudgment, h]
  · intro t h
    have hn : findSub judgmentMarker t = none := (findSub_eq_none_iff _ _).mpr h
    simp [truncateAtJudgment, hn]

/-- Concrete instances of C3: a text with the marker first occurring at
position 3, and a text without the marker. -/
theorem c3_truncation_witness :
    truncateAtJudgment (toL "In JUDGMENT of the JUDGMENT day")
        = (toL "In JUDGMENT of the JUDGMENT day").drop 3 ∧
    truncateAtJudgment (toL "plain judgment text") = toL "plain judgment text" :=
  ⟨c3_truncation_at_first_marker.1 (toL "In JUDGMENT of the JUDGMENT day") 3
      (by decide) (by decide),
    c3_truncation_at_first_marker.2 (toL "plain judgment text")
      (noOccurrence_of_boundedCheck _ _ (by decide) (by decide))⟩

/-- Claim C6 counterexample: pdfplumber yields one non-empty page and
then raises; PyPDF2 then succeeds with one page.  The claim says the
result is the secondary parser's output alone, but the code returns the
primary parser's partial page mixed with the secondary's page, because
`text_pages` is never reset before the fallback (lines 37, 49–56). -/
theorem c6_counterexample :
    read_pdf_from_bytes (.exn [toL "primary page"] (toL "mid-file crash"))
        (.ok [toL "secondary page"])
      ≠ joinNL (pageFilter [toL "secondary page"]) ∧
    read_pdf_from_bytes (.exn [toL "primary page"] (toL "mid-file crash"))
        (.ok [toL "secondary page"])
      = toL "primary page\nsecondary page" := by decide

/-- Claim C6 amended: if the primary parser raises or yields no text, the
secondary parser is attempted with the same page-concatenation policy,
but the non-empty page texts the primary parser had already produced are
retained and the secondary parser's non-empty page texts are appended
after them (the result is their newline-join, not the secondary parser's
output alone); if the secondary parser also raises, an error result
carrying a diagnostic message is returned rather than raising. -/
theorem c6_fallback_retains_primary_pages :
    (∀ (primary : ParseOutcome) (spages : List Str), primaryFailed primary →
        read_pdf_from_bytes primary (.ok spages)
          = joinNL (primaryPartial primary ++ pageFilter spages)) ∧
    (∀ (primary : ParseOutcome) (spages : List Str) (smsg : Str), primaryFailed primary →
        read_pdf_from_bytes primary (.exn spages smsg)
          = toL "[ERROR] Could not extract PDF text: " ++ smsg) := by
  constructor
  · intro primary spages hfail
    cases primary with
    | ok pages =>
      have h : pageFilter pages = [] := hfail
      simp [read_pdf_from_bytes, runFallback, primaryPartial, h]
    | exn pages msg =>
      simp [read_pdf_from_bytes, runFallback, primaryPartial]
  · intro primary spages smsg hfail
    cases primary with
    | ok pages =>
      have h : pageFilter pages = [] := hfail
      simp [read_pdf_from_bytes, runFallback, h]
    | exn pages msg =>
      simp [read_pdf_from_bytes, runFallback]

/-- Concrete instances of the amended C6: a mid-extraction primary crash
followed by a successful secondary pass mixes the outputs; a double
failure returns the in-band diagnostic string. -/
theorem c6_fallback_witness :
    read_pdf_from_bytes (.exn [toL "partial"] (toL "crash")) (.ok [toL "rest"])
        = toL "partial\nrest" ∧
    read_pdf_from_bytes (.exn [] (toL "crash")) (.exn [] (toL "bad xref"))
        = toL "[ERROR] Could not extract PDF text: bad xref" :=
  ⟨(c6_fallback_retains_primary_pages.1 (.exn [toL "partial"] (toL "crash")) [toL "rest"]
      trivial).trans (by decide),
    (c6_fallback_retains_primary_pages.2 (.exn [] (toL "crash")) [] (toL "bad xref")
      trivial).trans (by decide)⟩

/-- Claim C10: `read_pdf_from_bytes` is total (the embedding returns a
string on every combination of parser outcomes — all exceptions are
caught) and signals failure only in-band: every return value is either a
newline-join of page texts or begins with the `[ERROR]` marker.  The
handler classifies extraction failure solely by testing that marker
(line 334), so any extracted text that itself begins with `[ERROR]` —
even from a fully successful extraction — is rejected with a 400
response. -/
theorem c10_inband_error_signalling :
    (∀ primary secondary : ParseOutcome,
        (∃ ps : List Str, read_pdf_from_bytes primary secondary = joinNL ps) ∨
        errMarker.isPrefixOf (read_pdf_from_bytes primary secondary) = true) ∧
    (∀ (case_names judgment_texts : List Str) (classify : Str → Except Str Str)
        (cosScores : Str → Except Str (List ℚ)) (argsortDesc : List ℚ → List ℕ)
        (tin : Str) (f : UploadedFile),
        pstrip tin = [] → f.filename ≠ [] →
        (toL ".pdf").isSuffixOf (plower f.filename) = true →
        f.fileBytes ≠ [] →
        errMarker.isPrefixOf (read_pdf_from_bytes f.primary f.secondary) = true →
        index case_names judgment_texts classify cosScores argsortDesc
            { text_input := tin, file := some f }
          = .badRequest (pdfFailMsg (read_pdf_from_bytes f.primary f.secondary))) := by
  constructor
  · intro primary secondary
    have herr : ∀ e : Str,
        errMarker.isPrefixOf (toL "[ERROR] Could not extract PDF text: " ++ e) = true := by
      intro e
      refine List.isPrefixOf_iff_prefix.mpr ?_
      exact List.IsPrefix.trans (by decide) (List.prefix_append _ e)
    cases primary with
    | ok pages =>
      by_cases h : pageFilter pages = []
      · cases secondary with
        | ok spages =>
          left
          exact ⟨pageFilter pages ++ pageFilter spages, by simp [read_pdf_from_bytes, runFallback, h]⟩
        | exn spages smsg =>
          right
          simpa [read_pdf_from_bytes, runFallback, h] using herr smsg
      · left
        exact ⟨pageFilter pages, by simp [read_pdf_from_bytes, h]⟩
    | exn pages pmsg =>
      cases secondary with
      | ok spages =>
        left
        exact ⟨pageFilter pages ++ pageFilter spages, by simp [read_pdf_from_bytes, runFallback]⟩
      | exn spages smsg =>
        right
        simpa [read_pdf_from_bytes, runFallback] using herr smsg
  · intro cn jt classify cosScores argsortDesc tin f h1 h2 h3 h4 h5
    simp [index, indexInputPhase, h1, h2, h3, h4, h5]

/-- Concrete instance of C10: an extraction that genuinely succeeds but
whose single page text starts with `[ERROR]` is classified as an
extraction failure and rejected with a 400 response. -/
theorem c10_inband_witness :
    index [] [] (fun _ => .ok []) (fun _ => .ok []) (fun _ => [])
        { text_input := [],
          file := some ⟨toL "scan.pdf", toL "BYTES", .ok [toL "[ERROR] fine print"], .ok []⟩ }
      = .badRequest (pdfFailMsg (toL "[ERROR] fine print")) :=
  (c10_inband_error_signalling.2 [] [] (fun _ => .ok []) (fun _ => .ok []) (fun _ => [])
      [] ⟨toL "scan.pdf", toL "BYTES", .ok [toL "[ERROR] fine print"], .ok []⟩
      (by decide) (by decide) (by decide) (by decide) (by decide)).trans (by decide)

/-- The result list is as long as the retained index list. -/
theorem retrieveResults_length (cn jt : List Str) (cs : List ℚ) :
    ∀ (top : List ℕ) (k : ℕ), (retrieveResults cn jt cs top k).length = top.length
  | [], _ => rfl
  | _ :: rest, k => by
    simp [retrieveResults, retrieveResults_length cn jt cs rest (k + 1)]

/-- The scores of the results are the scores at the retained indices. -/
theorem retrieveResults_map_score (cn jt : List Str) (cs : List ℚ) :
    ∀ (top : List ℕ) (k : ℕ),
      (retrieveResults cn jt cs top k).map RankedResult.score
        = top.map (fun i => cs.getD i 0)
  | [], _ => rfl
  | _ :: rest, k => by
    simp [retrieveResults, retrieveResults_map_score cn jt cs rest (k + 1)]

/-- Claim C1: for every query (modelled by the cosine-score vector the
opaque encoder produces, one score per corpus entry) and every corpus,
the top-5 retrieval returns exactly `min 5 |corpus|` ranked results whose
scores are non-increasing — for any index order satisfying the
`np.argsort` contract. -/
theorem c1_retrieve_top5_length_sorted
    (case_names judgment_texts : List Str) (cos_scores : List ℚ) (order : List ℕ)
    (hlen : cos_scores.length = case_names.length)
    (hsort : IsArgsortDesc cos_scores order) :
    (retrieveResults case_names judgment_texts cos_scores (order.take 5) 0).length
        = min 5 case_names.length ∧
    ((retrieveResults case_names judgment_texts cos_scores (order.take 5) 0).map
        RankedResult.score).Pairwise (fun a b => b ≤ a) := by
  constructor
  · rw [retrieveResults_length, List.length_take, hsort.1.length_eq, List.length_range, hlen]
  · rw [retrieveResults_map_score, List.map_take]
    exact hsort.2.sublist (List.take_sublist _ _)

/-- Concrete instance of C1: a two-judgment corpus, scores `[1, 2]`, with
the conforming order `[1, 0]`. -/
theorem c1_retrieve_witness :
    (retrieveResults [toL "A", toL "B"] [toL "TA", toL "TB"] [1, 2]
        (([1, 0] : List ℕ).take 5) 0).length = min 5 2 ∧
    ((retrieveResults [toL "A", toL "B"] [toL "TA", toL "TB"] [1, 2]
        (([1, 0] : List ℕ).take 5) 0).map RankedResult.score).Pairwise (fun a b => b ≤ a) :=
  c1_retrieve_top5_length_sorted [toL "A", toL "B"] [toL "TA", toL "TB"] [1, 2] [1, 0]
    (by decide) ⟨by decide, by decide⟩

/-- Claim C2 counterexample: with two corpus entries of equal score, the
index order `[1, 0]` satisfies the `np.argsort` contract (the default
sort kind is not stable, so nothing constrains tied entries), yet it
violates the claimed ascending tie-break, and the built ranking lists the
higher-index judgment first. -/
theorem c2_tiebreak_counterexample :
    IsArgsortDesc [1, 1] [1, 0] ∧
    ¬ TieBreakAscending [1, 1] (([1, 0] : List ℕ).take 5) ∧
    (retrieveResults [toL "A", toL "B"] [toL "TA", toL "TB"] [1, 1]
        (([1, 0] : List ℕ).take 5) 0).map RankedResult.case = [toL "B", toL "A"] := by
  refine ⟨⟨by decide, by decide⟩, ?_, by decide⟩
  unfold TieBreakAscending
  decide

/-- Claim C2 amended: when two corpus entries have equal cosine score,
the code fixes no tie order: `np.argsort`'s default sort is unstable, so
any order of the tied indices conforms to the contract the code relies
on; both the index-ascending and the index-descending orders are
admissible and they produce different rankings. -/
theorem c2_tie_order_unspecified :
    IsArgsortDesc [1, 1] [0, 1] ∧ IsArgsortDesc [1, 1] [1, 0] ∧
    retrieveResults [toL "A", toL "B"] [toL "TA", toL "TB"] [1, 1]
        (([0, 1] : List ℕ).take 5) 0
      ≠ retrieveResults [toL "A", toL "B"] [toL "TA", toL "TB"] [1, 1]
        (([1, 0] : List ℕ).take 5) 0 := by
  refine ⟨⟨by decide, by decide⟩, ⟨by decide, by decide⟩, by decide⟩

/-- Claim C7: every returned RankedResult's `preview` is a prefix of its
`full_text`: the first 500 characters when the full text is longer than
500 characters, the whole text otherwise. -/
theorem c7_preview_prefix_of_full_text
    (case_names judgment_texts : List Str) (cos_scores : List ℚ) :
    ∀ (top : List ℕ) (k : ℕ) (r : RankedResult),
      r ∈ retrieveResults case_names judgment_texts cos_scores top k →
      r.preview <+: r.full_text ∧
      (500 < r.full_text.length → r.preview = r.full_text.take 500) ∧
      (r.full_text.length ≤ 500 → r.preview = r.full_text)
  | [], _, r, h => absurd h (List.not_mem_nil r)
  | idx :: rest, k, r, h => by
    rcases List.mem_cons.mp h with rfl | h'
    · exact ⟨List.take_prefix _ _, fun _ => rfl, fun hle => List.take_of_length_le hle⟩
    · exact c7_preview_prefix_of_full_text case_names judgment_texts cos_scores rest (k + 1) r h'

/-- Concrete instance of C7: the single result of a one-judgment corpus
has its full (short) text as preview, hence a prefix. -/
theorem c7_preview_witness :
    ({ case := toL "A", score := 1, rank := 1, preview := toL "TA", full_text := toL "TA" } : RankedResult).preview
      <+: ({ case := toL "A", score := 1, rank := 1, preview := toL "TA", full_text := toL "TA" } : RankedResult).full_text :=
  (c7_preview_prefix_of_full_text [toL "A"] [toL "TA"] [1] [0] 0
    { case := toL "A", score := 1, rank := 1, preview := toL "TA", full_text := toL "TA" }
    (by decide)).1

/-- Claim C4: for every POST request whose effective text (pasted, or
extracted from the uploaded PDF) contains fewer than 5
whitespace-separated tokens, the handler answers with a 400-class
response, and the response is the same whatever the classifier, encoder
and sort behave like — classification and retrieval never run. -/
theorem c4_short_input_rejected
    (case_names judgment_texts : List Str)
    (classify classify2 : Str → Except Str Str)
    (cosScores cosScores2 : Str → Except Str (List ℚ))
    (argsortDesc argsortDesc2 : List ℚ → List ℕ)
    (req : Request) (t : Str)
    (heff : effectiveText req = some t)
    (hwc : (pwords (pstrip t)).length < 5) :
    isClientError (index case_names judgment_texts classify cosScores argsortDesc req) = true ∧
    index case_names judgment_texts classify cosScores argsortDesc req
      = index case_names judgment_texts classify2 cosScores2 argsortDesc2 req := by
  have hphase : indexInputPhase req = .ok t := by
    unfold effectiveText at heff
    cases h : indexInputPhase req with
    | error r => rw [h] at heff; cases heff
    | ok v => rw [h] at heff; cases heff; rfl
  have hmain : ∀ (c : Str → Except Str Str) (s : Str → Except Str (List ℚ))
      (a : List ℚ → List ℕ),
      indexMainPhase case_names judgment_texts c s a t
        = if t = [] then .badRequest noTextMsg
          else .badRequest (tooShortMsg ((pwords (pstrip t)).length)) := by
    intro c s a
    by_cases ht : t = []
    · simp [indexMainPhase, ht]
    · simp [indexMainPhase, ht, hwc]
  simp only [index, hphase, hmain]
  by_cases ht : t = [] <;> simp [ht, isClientError]

/-- Concrete instance of C4: a pasted three-word text is rejected with a
client error regardless of the model components. -/
theorem c4_short_input_witness :
    isClientError (index [toL "A"] [toL "TA"] (fun _ => .ok (toL "CAT")) (fun _ => .ok [1])
        (fun _ => [0]) { text_input := toL "too short text", file := none }) = true ∧
    index [toL "A"] [toL "TA"] (fun _ => .ok (toL "CAT")) (fun _ => .ok [1]) (fun _ => [0])
        { text_input := toL "too short text", file := none }
      = index [toL "A"] [toL "TA"] (fun _ => .error (toL "down")) (fun _ => .error (toL "down"))
        (fun _ => []) { text_input := toL "too short text", file := none } :=
  c4_short_input_rejected [toL "A"] [toL "TA"] (fun _ => .ok (toL "CAT"))
    (fun _ => .error (toL "down")) (fun _ => .ok [1]) (fun _ => .error (toL "down"))
    (fun _ => [0]) (fun _ => [])
    { text_input := toL "too short text", file := none } (toL "too short text")
    (by decide) (by decide)

/-- Claim C5 counterexample: a request carrying BOTH a pasted five-word
text and an uploaded file is not rejected — it is processed exactly as if
the file were absent (lines 312–315: the file branch is entered only when
the stripped `text_input` is empty). -/
theorem c5_both_inputs_counterexample :
    isClientError (index [toL "A"] [toL "TA"] (fun _ => .ok (toL "CAT")) (fun _ => .ok [1])
        (fun _ => [0])
        { text_input := toL "alpha beta gamma delta epsilon",
          file := some ⟨toL "doc.pdf", toL "BYTES", .ok [toL "ignored"], .ok []⟩ }) = false ∧
    index [toL "A"] [toL "TA"] (fun _ => .ok (toL "CAT")) (fun _ => .ok [1]) (fun _ => [0])
        { text_input := toL "alpha beta gamma delta epsilon",
          file := some ⟨toL "doc.pdf", toL "BYTES", .ok [toL "ignored"], .ok []⟩ }
      = .page [{ case := toL "A", score := 1, rank := 1, preview := toL "TA", full_text := toL "TA" }]
          (toL "CAT") (toL "alpha beta gamma delta epsilon") := by
  exact ⟨by decide, by decide⟩

/-- Claim C5 amended: a request with neither pasted text nor uploaded
file is rejected with a client error, but a request with both present is
NOT rejected: it is processed from the pasted text and the uploaded file
is ignored entirely. -/
theorem c5_input_validation :
    (∀ (case_names judgment_texts : List Str) (classify : Str → Except Str Str)
        (cosScores : Str → Except Str (List ℚ)) (argsortDesc : List ℚ → List ℕ)
        (req : Request), pstrip req.text_input = [] → req.file = none →
        index case_names judgment_texts classify cosScores argsortDesc req
          = .badRequest noInputMsg) ∧
    (∀ (case_names judgment_texts : List Str) (classify : Str → Except Str Str)
        (cosScores : Str → Except Str (List ℚ)) (argsortDesc : List ℚ → List ℕ)
        (req : Request), pstrip req.text_input ≠ [] →
        index case_names judgment_texts classify cosScores argsortDesc req
          = index case_names judgment_texts classify cosScores argsortDesc
              { req with file := none }) := by
  constructor
  · intro cn jt classify cosScores argsortDesc req h1 h2
    simp [index, indexInputPhase, h1, h2]
  · intro cn jt classify cosScores argsortDesc req h1
    simp [index, indexInputPhase, h1]

/-- Concrete instances of the amended C5: an empty request is rejected;
a request with both inputs equals its file-less counterpart. -/
theorem c5_input_validation_witness :
    index [toL "A"] [toL "TA"] (fun _ => .ok (toL "CAT")) (fun _ => .ok [1]) (fun _ => [0])
        { text_input := toL "   ", file := none } = .badRequest noInputMsg ∧
    index [toL "A"] [toL "TA"] (fun _ => .ok (toL "CAT")) (fun _ => .ok [1]) (fun _ => [0])
        { text_input := toL "one two three four five",
          file := some ⟨toL "x.pdf", toL "B", .ok [toL "pg"], .ok []⟩ }
      = index [toL "A"] [toL "TA"] (fun _ => .ok (toL "CAT")) (fun _ => .ok [1]) (fun _ => [0])
          { text_input := toL "one two three four five", file := none } :=
  ⟨c5_input_validation.1 [toL "A"] [toL "TA"] (fun _ => .ok (toL "CAT")) (fun _ => .ok [1])
      (fun _ => [0]) { text_input := toL "   ", file := none } (by decide) rfl,
    (c5_input_validation.2 [toL "A"] [toL "TA"] (fun _ => .ok (toL "CAT")) (fun _ => .ok [1])
      (fun _ => [0])
      { text_input := toL "one two three four five",
        file := some ⟨toL "x.pdf", toL "B", .ok [toL "pg"], .ok []⟩ } (by decide)).trans rfl⟩

/-- Claim C8: with an empty context, the question "hello" gets the
canned greeting as a success (no error), and any substantive (non-empty,
non-greeting) question gets the canned guidance message as the answer,
not as an error — in both cases independently of the LLM client's state
and behaviour. -/
theorem c8_chat_empty_context_canned :
    (∀ (hasModel : Bool) (provider : ℕ → GenOutcome),
        chat hasModel provider (some { question := some (toL "hello"), context := [] })
          = .replyNoSources greetingResponse) ∧
    (∀ (hasModel : Bool) (provider : ℕ → GenOutcome) (q : Str),
        pstrip q ≠ [] →
        pstrip (plower (pstrip q)) ∉ greetingsList →
        chat hasModel provider (some { question := some q, context := [] })
          = .replyNoSources guidanceResponse) := by
  constructor
  · intro hasModel provider
    rfl
  · intro hasModel provider q h1 h2
    simp only [chat]
    rw [if_neg h1]
    simp [h2]

/-- Concrete instance of C8's substantive branch: a legal question with
no context gets the guidance message. -/
theorem c8_chat_witness :
    chat true (fun _ => .exn (toL "down"))
        (some { question := some (toL "what is anticipatory bail"), context := [] })
      = .replyNoSources guidanceResponse :=
  c8_chat_empty_context_canned.2 true (fun _ => .exn (toL "down"))
    (toL "what is anticipatory bail") (by decide) (by decide)

/-- `classifyGeminiErr` always yields an error and no answer. -/
theorem classifyGeminiErr_shape (max_retries : ℕ) (e : Str) :
    (classifyGeminiErr max_retries e).answer = none ∧
    ((classifyGeminiErr max_retries e).error.isSome = true) := by
  unfold classifyGeminiErr
  split
  · exact ⟨rfl, rfl⟩
  · split
    · exact ⟨rfl, rfl⟩
    · exact ⟨rfl, rfl⟩

/-- Every result of the retry loop has exactly one of answer/error. -/
theorem attemptLoop_answer_xor_error (provider : ℕ → GenOutcome) (sources : List Str)
    (max_retries : ℕ) : ∀ n : ℕ,
    ((attemptLoop provider sources max_retries n).answer.isSome = true ∧
      (attemptLoop provider sources max_retries n).error = none) ∨
    ((attemptLoop provider sources max_retries n).answer = none ∧
      (attemptLoop provider sources max_retries n).error.isSome = true)
  | 0 => Or.inr ⟨rfl, rfl⟩
  | Nat.succ n => by
    simp only [attemptLoop]
    cases provider (max_retries - Nat.succ n) with
    | ok t =>
      dsimp only
      by_cases ht : t ≠ []
      · rw [if_pos ht]
        exact Or.inl ⟨rfl, rfl⟩
      · rw [if_neg ht]
        exact Or.inr ⟨rfl, rfl⟩
    | exn e =>
      dsimp only
      by_cases hlast : (max_retries - Nat.succ n == max_retries - 1) = true
      · rw [if_pos hlast]
        rcases classifyGeminiErr_shape max_retries e with ⟨ha, he⟩
        exact Or.inr ⟨ha, he⟩
      · rw [if_neg hlast]
        exact attemptLoop_answer_xor_error provider sources max_retries n

/-- Claim C9: every `ExplanationResult` produced by
`get_legal_explanation` — on every input and every return path (no
model, empty context, provider success, empty provider response, retries
exhausted) — has exactly one of `answer` and `error` populated and the
other `None`. -/
theorem c9_answer_xor_error (hasModel : Bool) (question : Str) (chunks : List Chunk)
    (provider : ℕ → GenOutcome) (max_retries : ℕ) :
    (((get_legal_explanation hasModel question chunks provider max_retries).answer.isSome = true) ∧
      (get_legal_explanation hasModel question chunks provider max_retries).error = none) ∨
    ((get_legal_explanation hasModel question chunks provider max_retries).answer = none ∧
      ((get_legal_explanation hasModel question chunks provider max_retries).error.isSome = true)) := by
  unfold get_legal_explanation
  by_cases hm : ¬ hasModel
  · rw [if_pos hm]
    exact Or.inr ⟨rfl, rfl⟩
  · rw [if_neg hm]
    by_cases hc : chunks = []
    · rw [if_pos hc]
      exact Or.inl ⟨rfl, rfl⟩
    · rw [if_neg hc]
      exact attemptLoop_answer_xor_error provider (chunkSources chunks) max_retries max_retries

end LexiMind
